import Mathlib

/-!
Verification of the pension projection engine of `src/app.py`
(`run_pension_simulator` and its inner helper `get_auto_enrolment_rate`).

The engine is embedded shallowly: the Python loop-carried local variables
become fields of `SimState`, one loop iteration becomes `step`, and the
per-year rows appended to the result lists become `YearRecord`s.  Real /
floating-point arithmetic of the source is modelled with exact rationals
(`ℚ`); `horizonYears` is an integer (`ℤ`), matching `int(years)` in the
source, and the loop `for year in range(1, int(years) + 1)` becomes a
recursion over `1 .. horizonYears.toNat`.

The repository's code in `src/` implements the staged auto-enrolment
alternative strategy; the `FixedContribution` variant of the alternative
strategy belongs to iterations of the repository that are not under
`src/`, so that branch is modelled from the spec (see
`fixedContributionAlt`).
-/

namespace PensionSim

/-- The variant selecting the second comparison strategy's
contribution-rate schedule. -/
inductive AltStrategy where
  | FixedContribution : AltStrategy
  | StagedAutoEnrolment : AltStrategy
deriving DecidableEq, Repr

/-- The immutable input record of the simulation
(the user inputs collected in `run_pension_simulator`). -/
structure SimulationParameters where
  startingSalary : ℚ
  earlyRaiseRate : ℚ
  lateRaiseRate : ℚ
  baseContributionRate : ℚ
  increaseContributionRate : ℚ
  investmentReturnRate : ℚ
  feeRate : ℚ
  horizonYears : ℤ
  targetSavings : ℚ
  alternativeStrategy : AltStrategy
deriving DecidableEq, Repr

/-- `get_auto_enrolment_rate` from `src/app.py` (lines 126–135):
the staged auto-enrolment rate for a given year. -/
def get_auto_enrolment_rate (year : ℤ) : ℚ :=
  if 1 ≤ year ∧ year ≤ 3 then 3/200
  else if 4 ≤ year ∧ year ≤ 6 then 3/100
  else if 7 ≤ year ∧ year ≤ 9 then 9/200
  else 3/50

/-- Modelled from the spec: the `FixedContribution` alternative-strategy
contribution, `contribution_alt = salary * baseContributionRate` every
year (no ratchet, no early-phase boost).  The code of this variant lives
in repository iterations that are not under `src/`; only the staged
auto-enrolment variant is in `src/app.py`. -/
def fixedContributionAlt (baseContributionRate salary : ℚ) : ℚ :=
  salary * baseContributionRate

/-- The loop-carried state of one simulation run: the Python local
variables of `run_pension_simulator` (lines 137–208).  The after-fee
balances are per-iteration locals in the source; they are kept in the
state so that the row appended for a year is a projection of the state
at the end of that year's iteration. -/
structure SimState where
  salaryCurrent : ℚ
  annualContributionCuan : ℚ
  pensionBalanceCuan : ℚ
  pensionBalanceCuanAfterFees : ℚ
  feesAccumulatedCuan : ℚ
  annualContributionAuto : ℚ
  pensionBalanceAuto : ℚ
  pensionBalanceAutoAfterFees : ℚ
  feesAccumulatedAuto : ℚ
  milestoneYear : Option ℕ
  milestoneFound : Bool
deriving DecidableEq, Repr

/-- The seeded year-0 state (`src/app.py` lines 141–165): both balances
start at the year-0 contribution, the after-fee lists are seeded with
the pre-fee balance, accumulated fees start at 0, and the milestone is
unset.  The primary (CUAN) contribution is
`pension_contribution_rate * starting_salary`; the alternative seed is
`get_auto_enrolment_rate(1) * starting_salary` for the staged variant in
`src/`, and `baseContributionRate * startingSalary` for the
spec-modelled fixed variant. -/
def initState (p : SimulationParameters) : SimState :=
  let annual_contribution_cuan := p.baseContributionRate * p.startingSalary
  let annual_contribution_auto :=
    match p.alternativeStrategy with
    | AltStrategy.StagedAutoEnrolment => get_auto_enrolment_rate 1 * p.startingSalary
    | AltStrategy.FixedContribution =>
        fixedContributionAlt p.baseContributionRate p.startingSalary
  { salaryCurrent := p.startingSalary
    annualContributionCuan := annual_contribution_cuan
    pensionBalanceCuan := annual_contribution_cuan
    pensionBalanceCuanAfterFees := annual_contribution_cuan
    feesAccumulatedCuan := 0
    annualContributionAuto := annual_contribution_auto
    pensionBalanceAuto := annual_contribution_auto
    pensionBalanceAutoAfterFees := annual_contribution_auto
    feesAccumulatedAuto := 0
    milestoneYear := none
    milestoneFound := false }

/-- One iteration of the simulation loop (`src/app.py` lines 167–208)
for a given `year ≥ 1`: salary update and primary contribution (early
phase accumulates the redirected raise, late phase ratchets with `max`),
alternative contribution, growth applied to the pre-fee balances, fee
deduction, and the first-crossing milestone check against the primary
after-fee balance. -/
def step (p : SimulationParameters) (st : SimState) (year : ℕ) : SimState :=
  let salary_current :=
    if year ≤ 5 then st.salaryCurrent * (1 + p.earlyRaiseRate)
    else st.salaryCurrent * (1 + p.lateRaiseRate)
  let annual_contribution_cuan :=
    if year ≤ 5 then
      st.annualContributionCuan +
        st.salaryCurrent * p.earlyRaiseRate * p.increaseContributionRate
    else max st.annualContributionCuan (salary_current * p.baseContributionRate)
  let annual_contribution_auto :=
    match p.alternativeStrategy with
    | AltStrategy.StagedAutoEnrolment => salary_current * get_auto_enrolment_rate year
    | AltStrategy.FixedContribution =>
        fixedContributionAlt p.baseContributionRate salary_current
  let pension_balance_cuan :=
    (st.pensionBalanceCuan + annual_contribution_cuan) * (1 + p.investmentReturnRate)
  let fees_paid_cuan := pension_balance_cuan * p.feeRate
  let pension_balance_cuan_after_fees := pension_balance_cuan - fees_paid_cuan
  let fees_accumulated_cuan := st.feesAccumulatedCuan + fees_paid_cuan
  let pension_balance_auto :=
    (st.pensionBalanceAuto + annual_contribution_auto) * (1 + p.investmentReturnRate)
  let fees_paid_auto := pension_balance_auto * p.feeRate
  let pension_balance_auto_after_fees := pension_balance_auto - fees_paid_auto
  let fees_accumulated_auto := st.feesAccumulatedAuto + fees_paid_auto
  let milestone_year :=
    if st.milestoneFound = false ∧ p.targetSavings ≤ pension_balance_cuan_after_fees then
      some year
    else st.milestoneYear
  let milestone_found :=
    if st.milestoneFound = false ∧ p.targetSavings ≤ pension_balance_cuan_after_fees then
      true
    else st.milestoneFound
  { salaryCurrent := salary_current
    annualContributionCuan := annual_contribution_cuan
    pensionBalanceCuan := pension_balance_cuan
    pensionBalanceCuanAfterFees := pension_balance_cuan_after_fees
    feesAccumulatedCuan := fees_accumulated_cuan
    annualContributionAuto := annual_contribution_auto
    pensionBalanceAuto := pension_balance_auto
    pensionBalanceAutoAfterFees := pension_balance_auto_after_fees
    feesAccumulatedAuto := fees_accumulated_auto
    milestoneYear := milestone_year
    milestoneFound := milestone_found }

/-- The state at the end of year `n`: the seed for `n = 0`, one `step`
per loop iteration for `n ≥ 1` (years run `1, 2, …`). -/
def simStateUpTo (p : SimulationParameters) : ℕ → SimState
  | 0 => initState p
  | n + 1 => step p (simStateUpTo p n) (n + 1)

/-- One row of the output table: the values appended to the result lists
for a given year (`src/app.py` lines 137–161 for the seed, 194–204 for
the loop body). -/
structure YearRecord where
  year : ℕ
  salary : ℚ
  contributionPrimary : ℚ
  contributionAlternative : ℚ
  balanceBeforeFeesPrimary : ℚ
  balanceBeforeFeesAlternative : ℚ
  balanceAfterFeesPrimary : ℚ
  balanceAfterFeesAlternative : ℚ
  cumulativeFeesPrimary : ℚ
  cumulativeFeesAlternative : ℚ
deriving DecidableEq, Repr

/-- The `YearRecord` for year `y`: the projection of the state at the
end of year `y` (for `y = 0`, of the seed). -/
def yearRecordAt (p : SimulationParameters) (y : ℕ) : YearRecord :=
  let st := simStateUpTo p y
  { year := y
    salary := st.salaryCurrent
    contributionPrimary := st.annualContributionCuan
    contributionAlternative := st.annualContributionAuto
    balanceBeforeFeesPrimary := st.pensionBalanceCuan
    balanceBeforeFeesAlternative := st.pensionBalanceAuto
    balanceAfterFeesPrimary := st.pensionBalanceCuanAfterFees
    balanceAfterFeesAlternative := st.pensionBalanceAutoAfterFees
    cumulativeFeesPrimary := st.feesAccumulatedCuan
    cumulativeFeesAlternative := st.feesAccumulatedAuto }

/-- The ordered sequence of rows produced by a run: years
`0 .. horizonYears` (a negative `horizonYears` makes
`range(1, int(years) + 1)` empty, leaving only the seed row). -/
def simulationRecords (p : SimulationParameters) : List YearRecord :=
  (List.range (p.horizonYears.toNat + 1)).map (yearRecordAt p)

/-- The simulation output: the ordered year rows plus the optional
milestone year (`milestone_year` / `milestone_found` in the source). -/
structure SimulationResult where
  records : List YearRecord
  milestoneYear : Option ℕ
deriving DecidableEq, Repr

/-- The whole engine: `run_pension_simulator`'s simulation logic
(`src/app.py` lines 137–208) as a pure function. -/
def simulate (p : SimulationParameters) : SimulationResult :=
  { records := simulationRecords p
    milestoneYear := (simStateUpTo p p.horizonYears.toNat).milestoneYear }

/-- The concrete scenario of the spec (§8): horizon 1, fixed-contribution
alternative, target 13000. -/
def scenarioParams : SimulationParameters :=
  { startingSalary := 50000
    earlyRaiseRate := 1/10
    lateRaiseRate := 1/50
    baseContributionRate := 1/10
    increaseContributionRate := 3/5
    investmentReturnRate := 7/100
    feeRate := 1/100
    horizonYears := 1
    targetSavings := 13000
    alternativeStrategy := AltStrategy.FixedContribution }

/-- The concrete scenario with the staged auto-enrolment alternative
instead of the fixed-contribution one (this is the variant whose code is
in `src/app.py`). -/
def stagedScenarioParams : SimulationParameters :=
  { scenarioParams with alternativeStrategy := AltStrategy.StagedAutoEnrolment }

/-- The concrete scenario with a negative early raise rate (all rate
fields are unconstrained real numbers per the spec, §4.2). -/
def negativeRaiseParams : SimulationParameters :=
  { scenarioParams with earlyRaiseRate := -1/2, increaseContributionRate := 1 }

/-- The concrete scenario with a negative simulation horizon. -/
def negativeHorizonParams : SimulationParameters :=
  { scenarioParams with horizonYears := -1 }

/-- The concrete scenario with a zero starting salary (allowed: the spec
constrains `startingSalary` only to be ≥ 0). -/
def zeroSalaryParams : SimulationParameters :=
  { scenarioParams with startingSalary := 0 }

section Helpers

lemma simStateUpTo_succ (p : SimulationParameters) (n : ℕ) :
    simStateUpTo p (n + 1) = step p (simStateUpTo p n) (n + 1) := rfl

lemma simulationRecords_length (p : SimulationParameters) :
    (simulationRecords p).length = p.horizonYears.toNat + 1 := by
  simp [simulationRecords]

lemma simulationRecords_getElem (p : SimulationParameters) {y : ℕ}
    (h : y ≤ p.horizonYears.toNat) :
    (simulationRecords p)[y]? = some (yearRecordAt p y) := by
  simp [simulationRecords, List.getElem?_map, List.getElem?_range,
    Nat.lt_succ_of_le h]

lemma simulate_records_getElem (p : SimulationParameters) {y : ℕ}
    (h : y ≤ p.horizonYears.toNat) :
    (simulate p).records[y]? = some (yearRecordAt p y) :=
  simulationRecords_getElem p h

end Helpers

section MoreHelpers

lemma get_auto_enrolment_rate_natCast (y : ℕ) (h : 1 ≤ y) :
    get_auto_enrolment_rate (y : ℤ) =
      (if y ≤ 3 then (3/200 : ℚ) else if y ≤ 6 then 3/100
       else if y ≤ 9 then 9/200 else 3/50) := by
  simp only [get_auto_enrolment_rate]
  split_ifs <;> first | rfl | omega

lemma salaryCurrent_nonneg_early (p : SimulationParameters)
    (hs : 0 ≤ p.startingSalary) (he : 0 ≤ p.earlyRaiseRate) :
    ∀ y : ℕ, y ≤ 5 → 0 ≤ (simStateUpTo p y).salaryCurrent := by
  intro y
  induction y with
  | zero => intro _; simpa [simStateUpTo, initState] using hs
  | succ k ih =>
    intro hk
    have h5 : k + 1 ≤ 5 := hk
    have hsal : 0 ≤ (simStateUpTo p k).salaryCurrent := ih (by omega)
    simp only [simStateUpTo_succ, step]
    rw [if_pos h5]
    exact mul_nonneg hsal (by linarith)

lemma annualContributionCuan_mono (p : SimulationParameters)
    (hs : 0 ≤ p.startingSalary) (he : 0 ≤ p.earlyRaiseRate)
    (hi : 0 ≤ p.increaseContributionRate) (y : ℕ) :
    (simStateUpTo p y).annualContributionCuan ≤
      (simStateUpTo p (y + 1)).annualContributionCuan := by
  by_cases h5 : y + 1 ≤ 5
  · have hsal : 0 ≤ (simStateUpTo p y).salaryCurrent :=
      salaryCurrent_nonneg_early p hs he y (by omega)
    simp only [simStateUpTo_succ, step]
    rw [if_pos h5]
    have hadd : 0 ≤ (simStateUpTo p y).salaryCurrent * p.earlyRaiseRate *
        p.increaseContributionRate :=
      mul_nonneg (mul_nonneg hsal he) hi
    linarith
  · simp only [simStateUpTo_succ, step]
    rw [if_neg h5]
    exact le_max_left _ _

lemma step_milestoneYear (p : SimulationParameters) (st : SimState) (year : ℕ) :
    (step p st year).milestoneYear =
      if st.milestoneFound = false ∧
          p.targetSavings ≤ (step p st year).pensionBalanceCuanAfterFees then
        some year
      else st.milestoneYear := by
  simp only [step]

lemma step_milestoneFound (p : SimulationParameters) (st : SimState) (year : ℕ) :
    (step p st year).milestoneFound =
      if st.milestoneFound = false ∧
          p.targetSavings ≤ (step p st year).pensionBalanceCuanAfterFees then
        true
      else st.milestoneFound := by
  simp only [step]

lemma simStateUpTo_milestoneYear_succ (p : SimulationParameters) (k : ℕ) :
    (simStateUpTo p (k + 1)).milestoneYear =
      if (simStateUpTo p k).milestoneFound = false ∧
          p.targetSavings ≤ (simStateUpTo p (k + 1)).pensionBalanceCuanAfterFees then
        some (k + 1)
      else (simStateUpTo p k).milestoneYear :=
  step_milestoneYear p (simStateUpTo p k) (k + 1)

lemma simStateUpTo_milestoneFound_succ (p : SimulationParameters) (k : ℕ) :
    (simStateUpTo p (k + 1)).milestoneFound =
      if (simStateUpTo p k).milestoneFound = false ∧
          p.targetSavings ≤ (simStateUpTo p (k + 1)).pensionBalanceCuanAfterFees then
        true
      else (simStateUpTo p k).milestoneFound :=
  step_milestoneFound p (simStateUpTo p k) (k + 1)

lemma simulate_milestoneYear (p : SimulationParameters) :
    (simulate p).milestoneYear =
      (simStateUpTo p p.horizonYears.toNat).milestoneYear := rfl

/-- The loop's milestone bookkeeping is first-crossing: `milestoneFound`
mirrors `milestoneYear`, and `milestoneYear = some m` means `m` is the
first year in `1 .. n` whose primary after-fee balance meets the
target. -/
lemma milestone_invariant (p : SimulationParameters) :
    ∀ n : ℕ,
      ((simStateUpTo p n).milestoneFound = false →
        (simStateUpTo p n).milestoneYear = none ∧
        ∀ y : ℕ, 1 ≤ y → y ≤ n →
          ¬ p.targetSavings ≤ (simStateUpTo p y).pensionBalanceCuanAfterFees) ∧
      (∀ m : ℕ, (simStateUpTo p n).milestoneYear = some m →
        (simStateUpTo p n).milestoneFound = true ∧ 1 ≤ m ∧ m ≤ n ∧
        p.targetSavings ≤ (simStateUpTo p m).pensionBalanceCuanAfterFees ∧
        ∀ y : ℕ, 1 ≤ y → y < m →
          ¬ p.targetSavings ≤ (simStateUpTo p y).pensionBalanceCuanAfterFees) ∧
      ((simStateUpTo p n).milestoneFound = true →
        (simStateUpTo p n).milestoneYear ≠ none) := by
  intro n
  induction n with
  | zero =>
    refine ⟨fun _ => ⟨rfl, fun y hy1 hy0 => absurd hy0 (by omega)⟩, ?_, ?_⟩
    · intro m hm
      simp [simStateUpTo, initState] at hm
    · intro h
      simp [simStateUpTo, initState] at h
  | succ k ih =>
    obtain ⟨ih1, ih2, ih3⟩ := ih
    by_cases hc : (simStateUpTo p k).milestoneFound = false ∧
        p.targetSavings ≤ (simStateUpTo p (k + 1)).pensionBalanceCuanAfterFees
    · have hY : (simStateUpTo p (k + 1)).milestoneYear = some (k + 1) := by
        rw [simStateUpTo_milestoneYear_succ, if_pos hc]
      have hF : (simStateUpTo p (k + 1)).milestoneFound = true := by
        rw [simStateUpTo_milestoneFound_succ, if_pos hc]
      refine ⟨?_, ?_, ?_⟩
      · intro h
        rw [hF] at h
        exact absurd h (by simp)
      · intro m hm
        rw [hY] at hm
        obtain rfl : k + 1 = m := Option.some.inj hm
        refine ⟨hF, by omega, le_refl _, hc.2, fun y hy1 hy2 => ?_⟩
        exact (ih1 hc.1).2 y hy1 (by omega)
      · intro _
        rw [hY]
        simp
    · have hY : (simStateUpTo p (k + 1)).milestoneYear =
          (simStateUpTo p k).milestoneYear := by
        rw [simStateUpTo_milestoneYear_succ, if_neg hc]
      have hF : (simStateUpTo p (k + 1)).milestoneFound =
          (simStateUpTo p k).milestoneFound := by
        rw [simStateUpTo_milestoneFound_succ, if_neg hc]
      refine ⟨?_, ?_, ?_⟩
      · intro h
        rw [hF] at h
        obtain ⟨hnone, hall⟩ := ih1 h
        refine ⟨by rw [hY]; exact hnone, fun y hy1 hy2 => ?_⟩
        rcases (show y ≤ k ∨ y = k + 1 by omega) with hyk | rfl
        · exact hall y hy1 hyk
        · exact fun hle => hc ⟨h, hle⟩
      · intro m hm
        rw [hY] at hm
        obtain ⟨hf, h1m, hmk, hpred, hmin⟩ := ih2 m hm
        exact ⟨by rw [hF]; exact hf, h1m, by omega, hpred, hmin⟩
      · intro h
        rw [hF] at h
        rw [hY]
        exact ih3 h

/-- The non-milestone fields of the state do not depend on the fee rate
(fees are a reported deduction only). -/
lemma state_feeRate_independent (p : SimulationParameters) (f : ℚ) :
    ∀ y : ℕ,
      (simStateUpTo { p with feeRate := f } y).salaryCurrent =
        (simStateUpTo p y).salaryCurrent ∧
      (simStateUpTo { p with feeRate := f } y).annualContributionCuan =
        (simStateUpTo p y).annualContributionCuan ∧
      (simStateUpTo { p with feeRate := f } y).pensionBalanceCuan =
        (simStateUpTo p y).pensionBalanceCuan ∧
      (simStateUpTo { p with feeRate := f } y).annualContributionAuto =
        (simStateUpTo p y).annualContributionAuto ∧
      (simStateUpTo { p with feeRate := f } y).pensionBalanceAuto =
        (simStateUpTo p y).pensionBalanceAuto := by
  intro y
  induction y with
  | zero => simp [simStateUpTo, initState]
  | succ k ih =>
    obtain ⟨h1, h2, h3, h4, h5⟩ := ih
    simp [simStateUpTo_succ, step, h1, h2, h3, h4, h5]

lemma simStateUpTo_afterFees_succ (p : SimulationParameters) (k : ℕ) :
    (simStateUpTo p (k + 1)).pensionBalanceCuanAfterFees =
      (simStateUpTo p (k + 1)).pensionBalanceCuan * (1 - p.feeRate) ∧
    (simStateUpTo p (k + 1)).pensionBalanceAutoAfterFees =
      (simStateUpTo p (k + 1)).pensionBalanceAuto * (1 - p.feeRate) := by
  constructor <;> (simp only [simStateUpTo_succ, step]; ring)

/-- No field of the state other than the milestone bookkeeping depends
on the target (the target is only read in the milestone check). -/
lemma state_target_independent (p : SimulationParameters) (t : ℚ) :
    ∀ y : ℕ,
      (simStateUpTo { p with targetSavings := t } y).salaryCurrent =
        (simStateUpTo p y).salaryCurrent ∧
      (simStateUpTo { p with targetSavings := t } y).annualContributionCuan =
        (simStateUpTo p y).annualContributionCuan ∧
      (simStateUpTo { p with targetSavings := t } y).pensionBalanceCuan =
        (simStateUpTo p y).pensionBalanceCuan ∧
      (simStateUpTo { p with targetSavings := t } y).pensionBalanceCuanAfterFees =
        (simStateUpTo p y).pensionBalanceCuanAfterFees ∧
      (simStateUpTo { p with targetSavings := t } y).feesAccumulatedCuan =
        (simStateUpTo p y).feesAccumulatedCuan ∧
      (simStateUpTo { p with targetSavings := t } y).annualContributionAuto =
        (simStateUpTo p y).annualContributionAuto ∧
      (simStateUpTo { p with targetSavings := t } y).pensionBalanceAuto =
        (simStateUpTo p y).pensionBalanceAuto ∧
      (simStateUpTo { p with targetSavings := t } y).pensionBalanceAutoAfterFees =
        (simStateUpTo p y).pensionBalanceAutoAfterFees ∧
      (simStateUpTo { p with targetSavings := t } y).feesAccumulatedAuto =
        (simStateUpTo p y).feesAccumulatedAuto := by
  intro y
  induction y with
  | zero => simp [simStateUpTo, initState]
  | succ k ih =>
    obtain ⟨h1, h2, h3, h4, h5, h6, h7, h8, h9⟩ := ih
    simp [simStateUpTo_succ, step, h1, h2, h3, h4, h5, h6, h7, h8, h9]

lemma yearRecordAt_target_independent (p : SimulationParameters) (t : ℚ)
    (y : ℕ) :
    yearRecordAt { p with targetSavings := t } y = yearRecordAt p y := by
  obtain ⟨h1, h2, h3, h4, h5, h6, h7, h8, h9⟩ := state_target_independent p t y
  simp [yearRecordAt, h1, h2, h3, h4, h5, h6, h7, h8, h9]

end MoreHelpers

/-- C2: milestoneYear, when present, is the first (least) year y ≥ 1
whose primary after-fee balance meets targetSavings, it lies in
[1, horizonYears], and when absent no year within the horizon meets the
target (first-crossing, locked semantics). -/
theorem C2_milestone_first_crossing (p : SimulationParameters) :
    (∀ m : ℕ, (simulate p).milestoneYear = some m →
      1 ≤ m ∧ (m : ℤ) ≤ p.horizonYears ∧
      (∃ r, (simulate p).records[m]? = some r ∧
        p.targetSavings ≤ r.balanceAfterFeesPrimary) ∧
      ∀ y : ℕ, ∀ r', 1 ≤ y → y < m → (simulate p).records[y]? = some r' →
        r'.balanceAfterFeesPrimary < p.targetSavings) ∧
    ((simulate p).milestoneYear = none →
      ∀ y : ℕ, ∀ r', 1 ≤ y → y ≤ p.horizonYears.toNat →
        (simulate p).records[y]? = some r' →
        r'.balanceAfterFeesPrimary < p.targetSavings) := by
  obtain ⟨inv1, inv2, inv3⟩ := milestone_invariant p p.horizonYears.toNat
  constructor
  · intro m hm
    rw [simulate_milestoneYear] at hm
    obtain ⟨hf, h1m, hmN, hpred, hmin⟩ := inv2 m hm
    refine ⟨h1m, by omega,
      ⟨yearRecordAt p m, simulate_records_getElem p hmN, ?_⟩, ?_⟩
    · simpa [yearRecordAt] using hpred
    · intro y r' hy1 hym hr'
      rw [simulate_records_getElem p (by omega : y ≤ p.horizonYears.toNat)] at hr'
      obtain rfl : yearRecordAt p y = r' := Option.some.inj hr'
      have hy := hmin y hy1 hym
      simpa [yearRecordAt] using not_le.mp hy
  · intro hnone y r' hy1 hyN hr'
    rw [simulate_milestoneYear] at hnone
    have hff : (simStateUpTo p p.horizonYears.toNat).milestoneFound = false := by
      cases hb : (simStateUpTo p p.horizonYears.toNat).milestoneFound
      · rfl
      · exact absurd hnone (inv3 hb)
    obtain ⟨_, hall⟩ := inv1 hff
    rw [simulate_records_getElem p hyN] at hr'
    obtain rfl : yearRecordAt p y = r' := Option.some.inj hr'
    simpa [yearRecordAt] using not_le.mp (hall y hy1 hyN)

/-- Witness for C2 at the concrete spec scenario (milestone year 1). -/
theorem C2_milestone_witness :
    1 ≤ 1 ∧ ((1 : ℕ) : ℤ) ≤ scenarioParams.horizonYears ∧
    (∃ r, (simulate scenarioParams).records[1]? = some r ∧
      scenarioParams.targetSavings ≤ r.balanceAfterFeesPrimary) ∧
    ∀ y : ℕ, ∀ r', 1 ≤ y → y < 1 →
      (simulate scenarioParams).records[y]? = some r' →
      r'.balanceAfterFeesPrimary < scenarioParams.targetSavings :=
  (C2_milestone_first_crossing scenarioParams).1 1
    (by norm_num [simulate, simStateUpTo, step, initState, scenarioParams,
      get_auto_enrolment_rate, fixedContributionAlt])

/-- C3: for every year y ≥ 1 within the horizon, each strategy's pre-fee
balance satisfies balance[y] = (balance[y-1] + contribution[y]) *
(1 + investmentReturnRate), where balance[y-1] is the previous year's
PRE-fee balance; the after-fee balance is the reported deduction
balance[y] - balance[y] * feeRate. -/
theorem C3_growth_recurrence (p : SimulationParameters) (y : ℕ) (h1 : 1 ≤ y)
    (h2 : y ≤ p.horizonYears.toNat) :
    ∃ r r', (simulate p).records[y]? = some r ∧
      (simulate p).records[y - 1]? = some r' ∧
      r.balanceBeforeFeesPrimary =
        (r'.balanceBeforeFeesPrimary + r.contributionPrimary) *
          (1 + p.investmentReturnRate) ∧
      r.balanceBeforeFeesAlternative =
        (r'.balanceBeforeFeesAlternative + r.contributionAlternative) *
          (1 + p.investmentReturnRate) ∧
      r.balanceAfterFeesPrimary =
        r.balanceBeforeFeesPrimary - r.balanceBeforeFeesPrimary * p.feeRate ∧
      r.balanceAfterFeesAlternative =
        r.balanceBeforeFeesAlternative -
          r.balanceBeforeFeesAlternative * p.feeRate := by
  obtain ⟨k, rfl⟩ : ∃ k, y = k + 1 := ⟨y - 1, by omega⟩
  simp only [Nat.add_sub_cancel]
  refine ⟨yearRecordAt p (k + 1), yearRecordAt p k,
    simulate_records_getElem p h2, simulate_records_getElem p (by omega),
    ?_, ?_, ?_, ?_⟩ <;>
    simp [yearRecordAt, simStateUpTo_succ, step]

/-- Witness for C3 at the concrete spec scenario, year 1. -/
theorem C3_growth_recurrence_witness :
    ∃ r r', (simulate scenarioParams).records[1]? = some r ∧
      (simulate scenarioParams).records[0]? = some r' ∧
      r.balanceBeforeFeesPrimary =
        (r'.balanceBeforeFeesPrimary + r.contributionPrimary) *
          (1 + scenarioParams.investmentReturnRate) ∧
      r.balanceBeforeFeesAlternative =
        (r'.balanceBeforeFeesAlternative + r.contributionAlternative) *
          (1 + scenarioParams.investmentReturnRate) ∧
      r.balanceAfterFeesPrimary =
        r.balanceBeforeFeesPrimary -
          r.balanceBeforeFeesPrimary * scenarioParams.feeRate ∧
      r.balanceAfterFeesAlternative =
        r.balanceBeforeFeesAlternative -
          r.balanceBeforeFeesAlternative * scenarioParams.feeRate :=
  C3_growth_recurrence scenarioParams 1 (by norm_num)
    (by norm_num [scenarioParams])

/-- C5: with the staged auto-enrolment alternative, the alternative
contribution at year y ≥ 1 is salary[y] times the staged rate (1.5% for
years 1–3, 3% for 4–6, 4.5% for 7–9, 6% for 10+), so for non-zero
salary the ratio contribution_alt/salary equals that rate exactly. -/
theorem C5_staged_rates (p : SimulationParameters)
    (hstrat : p.alternativeStrategy = AltStrategy.StagedAutoEnrolment)
    (y : ℕ) (h1 : 1 ≤ y) (h2 : y ≤ p.horizonYears.toNat) :
    ∃ r, (simulate p).records[y]? = some r ∧
      r.contributionAlternative = r.salary *
        (if y ≤ 3 then (3/200 : ℚ) else if y ≤ 6 then 3/100
         else if y ≤ 9 then 9/200 else 3/50) ∧
      (r.salary ≠ 0 →
        r.contributionAlternative / r.salary =
          (if y ≤ 3 then (3/200 : ℚ) else if y ≤ 6 then 3/100
           else if y ≤ 9 then 9/200 else 3/50)) := by
  obtain ⟨k, rfl⟩ : ∃ k, y = k + 1 := ⟨y - 1, by omega⟩
  have hmain : (yearRecordAt p (k + 1)).contributionAlternative =
      (yearRecordAt p (k + 1)).salary *
        (if k + 1 ≤ 3 then (3/200 : ℚ) else if k + 1 ≤ 6 then 3/100
         else if k + 1 ≤ 9 then 9/200 else 3/50) := by
    have hrate := get_auto_enrolment_rate_natCast (k + 1) (by omega)
    simp only [yearRecordAt, simStateUpTo_succ, step]
    rw [hstrat, hrate]
  refine ⟨yearRecordAt p (k + 1), simulate_records_getElem p h2, hmain,
    fun hsal => ?_⟩
  rw [hmain, mul_div_cancel_left₀ _ hsal]

/-- Witness for C5 at the staged concrete scenario, year 1 (rate
1.5%). -/
theorem C5_staged_rates_witness :
    ∃ r, (simulate stagedScenarioParams).records[1]? = some r ∧
      r.contributionAlternative = r.salary *
        (if 1 ≤ 3 then (3/200 : ℚ) else if 1 ≤ 6 then 3/100
         else if 1 ≤ 9 then 9/200 else 3/50) ∧
      (r.salary ≠ 0 →
        r.contributionAlternative / r.salary =
          (if 1 ≤ 3 then (3/200 : ℚ) else if 1 ≤ 6 then 3/100
           else if 1 ≤ 9 then 9/200 else 3/50)) :=
  C5_staged_rates stagedScenarioParams rfl 1 (by norm_num)
    (by norm_num [stagedScenarioParams, scenarioParams])

/-- C4 counterexample: rate fields are unconstrained (spec §4.2); with a
negative early raise rate the early-phase addition
`raise * increaseContributionRate` is negative and the primary
contribution strictly decreases from year 0 (5000) to year 1
(-20000). -/
theorem C4_counterexample :
    ∃ r0 r1, (simulate negativeRaiseParams).records[0]? = some r0 ∧
      (simulate negativeRaiseParams).records[1]? = some r1 ∧
      r1.contributionPrimary < r0.contributionPrimary := by
  refine ⟨yearRecordAt negativeRaiseParams 0, yearRecordAt negativeRaiseParams 1,
    simulate_records_getElem _ (Nat.zero_le _),
    simulate_records_getElem _ (by norm_num [negativeRaiseParams, scenarioParams]),
    ?_⟩
  norm_num [yearRecordAt, simStateUpTo, step, initState, negativeRaiseParams,
    scenarioParams, get_auto_enrolment_rate, fixedContributionAlt]

/-- C4 amended: whenever startingSalary, earlyRaiseRate and
increaseContributionRate are non-negative, the primary contribution
sequence is non-decreasing year-over-year for all y ≥ 1 (the late-phase
`max` ratchet needs no assumption at all; the early-phase accumulation
needs the added term `raise * increaseContributionRate` to be
non-negative). -/
theorem C4_ratchet (p : SimulationParameters) (hs : 0 ≤ p.startingSalary)
    (he : 0 ≤ p.earlyRaiseRate) (hi : 0 ≤ p.increaseContributionRate)
    (y : ℕ) (h1 : 1 ≤ y) (h2 : y ≤ p.horizonYears.toNat) :
    ∃ r r', (simulate p).records[y - 1]? = some r ∧
      (simulate p).records[y]? = some r' ∧
      r.contributionPrimary ≤ r'.contributionPrimary := by
  obtain ⟨k, rfl⟩ : ∃ k, y = k + 1 := ⟨y - 1, by omega⟩
  simp only [Nat.add_sub_cancel]
  refine ⟨yearRecordAt p k, yearRecordAt p (k + 1),
    simulate_records_getElem p (by omega), simulate_records_getElem p h2, ?_⟩
  simpa [yearRecordAt] using annualContributionCuan_mono p hs he hi k

/-- Witness for C4 at the concrete spec scenario, year 1
(5000 ≤ 8000). -/
theorem C4_ratchet_witness :
    ∃ r r', (simulate scenarioParams).records[0]? = some r ∧
      (simulate scenarioParams).records[1]? = some r' ∧
      r.contributionPrimary ≤ r'.contributionPrimary :=
  C4_ratchet scenarioParams (by norm_num [scenarioParams])
    (by norm_num [scenarioParams]) (by norm_num [scenarioParams]) 1
    (by norm_num) (by norm_num [scenarioParams])

/-- C6 counterexample: with horizonYears = -1 the engine does not fail:
`range(1, int(years) + 1)` is empty, and the run returns a normal result
holding exactly the seed record, with no milestone — no InvalidParameter
error exists anywhere in the code. -/
theorem C6_counterexample :
    simulate negativeHorizonParams =
      { records :=
          [{ year := 0, salary := 50000, contributionPrimary := 5000,
             contributionAlternative := 5000, balanceBeforeFeesPrimary := 5000,
             balanceBeforeFeesAlternative := 5000, balanceAfterFeesPrimary := 5000,
             balanceAfterFeesAlternative := 5000, cumulativeFeesPrimary := 0,
             cumulativeFeesAlternative := 0 }],
        milestoneYear := none } := by
  have h0 : ((-1 : ℤ)).toNat = 0 := rfl
  norm_num [simulate, simulationRecords, h0, List.range_succ, yearRecordAt,
    simStateUpTo, initState, negativeHorizonParams, scenarioParams,
    get_auto_enrolment_rate, fixedContributionAlt]

/-- C6 amended: the engine performs no input validation; for any
negative horizonYears the loop body runs zero times and the result is
the seed-only sequence with no milestone (no error is raised). -/
theorem C6_no_error_on_negative_horizon (p : SimulationParameters)
    (h : p.horizonYears < 0) :
    simulate p = { records := [yearRecordAt p 0], milestoneYear := none } := by
  have h0 : p.horizonYears.toNat = 0 := by omega
  simp [simulate, simulationRecords, h0, List.range_succ, List.range_zero,
    simStateUpTo, initState]

/-- Witness for the amended C6 at horizonYears = -1. -/
theorem C6_no_error_witness :
    simulate negativeHorizonParams =
      { records := [yearRecordAt negativeHorizonParams 0],
        milestoneYear := none } :=
  C6_no_error_on_negative_horizon negativeHorizonParams (by decide)

/-- C8 counterexample: with a zero starting salary (allowed by the spec)
every balance is 0, so raising the fee rate from 0 to 1 does NOT
strictly decrease the year-1 after-fee balance — it stays 0. -/
theorem C8_counterexample :
    (0 : ℚ) < 1 ∧
    ∃ r1 r2,
      (simulate { zeroSalaryParams with feeRate := 0 }).records[1]? = some r1 ∧
      (simulate { zeroSalaryParams with feeRate := 1 }).records[1]? = some r2 ∧
      r2.balanceAfterFeesPrimary = r1.balanceAfterFeesPrimary ∧
      ¬ r2.balanceAfterFeesPrimary < r1.balanceAfterFeesPrimary := by
  refine ⟨by norm_num,
    yearRecordAt { zeroSalaryParams with feeRate := 0 } 1,
    yearRecordAt { zeroSalaryParams with feeRate := 1 } 1,
    simulate_records_getElem _ (by norm_num [zeroSalaryParams, scenarioParams]),
    simulate_records_getElem _ (by norm_num [zeroSalaryParams, scenarioParams]),
    ?_, ?_⟩ <;>
    norm_num [yearRecordAt, simStateUpTo, step, initState, zeroSalaryParams,
      scenarioParams, get_auto_enrolment_rate, fixedContributionAlt]

/-- C8 amended: for f1 < f2 (all else fixed), salaries, contributions
and pre-fee balances are unchanged at every year, and wherever a year's
pre-fee balance is strictly positive its after-fee balance strictly
decreases with the larger fee rate. -/
theorem C8_fee_monotonicity (p : SimulationParameters) (f1 f2 : ℚ)
    (hf : f1 < f2) (y : ℕ) (h1 : 1 ≤ y) (h2 : y ≤ p.horizonYears.toNat) :
    ∃ r1 r2,
      (simulate { p with feeRate := f1 }).records[y]? = some r1 ∧
      (simulate { p with feeRate := f2 }).records[y]? = some r2 ∧
      r2.salary = r1.salary ∧
      r2.contributionPrimary = r1.contributionPrimary ∧
      r2.contributionAlternative = r1.contributionAlternative ∧
      r2.balanceBeforeFeesPrimary = r1.balanceBeforeFeesPrimary ∧
      r2.balanceBeforeFeesAlternative = r1.balanceBeforeFeesAlternative ∧
      (0 < r1.balanceBeforeFeesPrimary →
        r2.balanceAfterFeesPrimary < r1.balanceAfterFeesPrimary) ∧
      (0 < r1.balanceBeforeFeesAlternative →
        r2.balanceAfterFeesAlternative < r1.balanceAfterFeesAlternative) := by
  obtain ⟨k, rfl⟩ : ∃ k, y = k + 1 := ⟨y - 1, by omega⟩
  obtain ⟨hs1, hc1, hb1, ha1, hba1⟩ := state_feeRate_independent p f1 (k + 1)
  obtain ⟨hs2, hc2, hb2, ha2, hba2⟩ := state_feeRate_independent p f2 (k + 1)
  obtain ⟨hf1p, hf1a⟩ := simStateUpTo_afterFees_succ { p with feeRate := f1 } k
  obtain ⟨hf2p, hf2a⟩ := simStateUpTo_afterFees_succ { p with feeRate := f2 } k
  have e1p : (yearRecordAt { p with feeRate := f1 } (k + 1)).balanceAfterFeesPrimary =
      (simStateUpTo p (k + 1)).pensionBalanceCuan * (1 - f1) := by
    simp only [yearRecordAt]
    rw [hf1p, hb1]
  have e2p : (yearRecordAt { p with feeRate := f2 } (k + 1)).balanceAfterFeesPrimary =
      (simStateUpTo p (k + 1)).pensionBalanceCuan * (1 - f2) := by
    simp only [yearRecordAt]
    rw [hf2p, hb2]
  have e1a : (yearRecordAt { p with feeRate := f1 } (k + 1)).balanceAfterFeesAlternative =
      (simStateUpTo p (k + 1)).pensionBalanceAuto * (1 - f1) := by
    simp only [yearRecordAt]
    rw [hf1a, hba1]
  have e2a : (yearRecordAt { p with feeRate := f2 } (k + 1)).balanceAfterFeesAlternative =
      (simStateUpTo p (k + 1)).pensionBalanceAuto * (1 - f2) := by
    simp only [yearRecordAt]
    rw [hf2a, hba2]
  refine ⟨yearRecordAt { p with feeRate := f1 } (k + 1),
    yearRecordAt { p with feeRate := f2 } (k + 1),
    simulate_records_getElem _ h2, simulate_records_getElem _ h2,
    ?_, ?_, ?_, ?_, ?_, ?_, ?_⟩
  · simpa [yearRecordAt] using hs2.trans hs1.symm
  · simpa [yearRecordAt] using hc2.trans hc1.symm
  · simpa [yearRecordAt] using ha2.trans ha1.symm
  · simpa [yearRecordAt] using hb2.trans hb1.symm
  · simpa [yearRecordAt] using hba2.trans hba1.symm
  · intro hpos
    have hB : 0 < (simStateUpTo p (k + 1)).pensionBalanceCuan := by
      have : (yearRecordAt { p with feeRate := f1 } (k + 1)).balanceBeforeFeesPrimary =
          (simStateUpTo p (k + 1)).pensionBalanceCuan := by
        simpa [yearRecordAt] using hb1
      rwa [this] at hpos
    rw [e1p, e2p]
    exact mul_lt_mul_of_pos_left (by linarith) hB
  · intro hpos
    have hB : 0 < (simStateUpTo p (k + 1)).pensionBalanceAuto := by
      have : (yearRecordAt { p with feeRate := f1 } (k + 1)).balanceBeforeFeesAlternative =
          (simStateUpTo p (k + 1)).pensionBalanceAuto := by
        simpa [yearRecordAt] using hba1
      rwa [this] at hpos
    rw [e1a, e2a]
    exact mul_lt_mul_of_pos_left (by linarith) hB

/-- Witness for the amended C8 at the concrete spec scenario, fee rates
0.01 < 0.02, year 1. -/
theorem C8_fee_monotonicity_witness :
    ∃ r1 r2,
      (simulate { scenarioParams with feeRate := 1/100 }).records[1]? = some r1 ∧
      (simulate { scenarioParams with feeRate := 2/100 }).records[1]? = some r2 ∧
      r2.salary = r1.salary ∧
      r2.contributionPrimary = r1.contributionPrimary ∧
      r2.contributionAlternative = r1.contributionAlternative ∧
      r2.balanceBeforeFeesPrimary = r1.balanceBeforeFeesPrimary ∧
      r2.balanceBeforeFeesAlternative = r1.balanceBeforeFeesAlternative ∧
      (0 < r1.balanceBeforeFeesPrimary →
        r2.balanceAfterFeesPrimary < r1.balanceAfterFeesPrimary) ∧
      (0 < r1.balanceBeforeFeesAlternative →
        r2.balanceAfterFeesAlternative < r1.balanceAfterFeesAlternative) :=
  C8_fee_monotonicity scenarioParams (1/100) (2/100) (by norm_num) 1
    (by norm_num) (by norm_num [scenarioParams])

/-- C10: two runs differing only in targetSavings produce identical
YearRecord sequences (the target is read only by the milestone check);
only milestoneYear may differ. -/
theorem C10_target_noninterference (p : SimulationParameters) (t : ℚ) :
    (simulate { p with targetSavings := t }).records = (simulate p).records := by
  simp only [simulate, simulationRecords]
  exact List.map_congr_left fun a _ => yearRecordAt_target_independent p t a

/-- C9: for every parameter set with horizonYears = N ≥ 0, the result is
an ordered sequence of exactly N + 1 year records whose index equals the
year; in particular for N = 0 it contains exactly one record, the
seed. -/
theorem C9_record_count_and_indexing (p : SimulationParameters) (N : ℕ)
    (h : p.horizonYears = (N : ℤ)) :
    (simulate p).records.length = N + 1 ∧
    ∀ i : ℕ, ∀ hi : i < (simulate p).records.length,
      ((simulate p).records.get ⟨i, hi⟩).year = i := by
  constructor
  · simp [simulate, simulationRecords_length, h]
  · intro i hi
    simp [simulate, simulationRecords, List.get_eq_getElem, List.getElem_map,
      List.getElem_range, yearRecordAt]

/-- Witness for C9 at the concrete spec scenario (horizon 1): two
records, and the horizon-0 variant: one record. -/
theorem C9_record_count_and_indexing_witness :
    (simulate scenarioParams).records.length = 1 + 1 :=
  (C9_record_count_and_indexing scenarioParams 1 rfl).1

/-- C1 counterexample: with the staged auto-enrolment alternative (the
variant implemented in `src/app.py`), the year-0 alternative
contribution is `get_auto_enrolment_rate(1) * startingSalary =
0.015 * startingSalary`, not `baseContributionRate * startingSalary`
(here 750 ≠ 5000). -/
theorem C1_counterexample :
    ∃ r, (simulate stagedScenarioParams).records[0]? = some r ∧
      r.contributionAlternative ≠
        stagedScenarioParams.baseContributionRate *
          stagedScenarioParams.startingSalary := by
  refine ⟨yearRecordAt stagedScenarioParams 0,
    simulate_records_getElem _ (Nat.zero_le _), ?_⟩
  norm_num [yearRecordAt, simStateUpTo, initState, stagedScenarioParams,
    scenarioParams, get_auto_enrolment_rate]

/-- C1 amended: YearRecord[0] is the seeded year-0 state: salary =
startingSalary; the primary contribution and balances equal
baseContributionRate × startingSalary; the alternative contribution and
balances equal baseContributionRate × startingSalary under
FixedContribution but 0.015 × startingSalary (the year-1 staged rate)
under StagedAutoEnrolment; cumulative fees are 0. -/
theorem C1_year_zero_seed (p : SimulationParameters) :
    (simulate p).records[0]? = some (yearRecordAt p 0) ∧
    (yearRecordAt p 0).year = 0 ∧
    (yearRecordAt p 0).salary = p.startingSalary ∧
    (yearRecordAt p 0).contributionPrimary =
      p.baseContributionRate * p.startingSalary ∧
    (yearRecordAt p 0).balanceBeforeFeesPrimary =
      p.baseContributionRate * p.startingSalary ∧
    (yearRecordAt p 0).balanceAfterFeesPrimary =
      p.baseContributionRate * p.startingSalary ∧
    (yearRecordAt p 0).contributionAlternative =
      (match p.alternativeStrategy with
       | AltStrategy.FixedContribution => p.baseContributionRate * p.startingSalary
       | AltStrategy.StagedAutoEnrolment => (3/200 : ℚ) * p.startingSalary) ∧
    (yearRecordAt p 0).balanceBeforeFeesAlternative =
      (yearRecordAt p 0).contributionAlternative ∧
    (yearRecordAt p 0).balanceAfterFeesAlternative =
      (yearRecordAt p 0).contributionAlternative ∧
    (yearRecordAt p 0).cumulativeFeesPrimary = 0 ∧
    (yearRecordAt p 0).cumulativeFeesAlternative = 0 := by
  refine ⟨simulate_records_getElem p (Nat.zero_le _), ?_⟩
  cases hs : p.alternativeStrategy <;>
    norm_num [yearRecordAt, simStateUpTo, initState, hs,
      get_auto_enrolment_rate, fixedContributionAlt, mul_comm]

/-- C7: the concrete spec scenario (startingSalary 50000, early raise
0.10, late raise 0.02, base rate 0.10, increase rate 0.60, return 0.07,
fee 0.01, horizon 1, FixedContribution alternative, target 13000)
produces exactly the two records of the spec and milestone year 1:
year 1 has salary 55000, primary contribution 8000, alternative 5500,
pre-fee balances 13910 and 11235, after-fee balances 13770.90 and
11122.65, cumulative fees 139.10 and 112.35. -/
theorem C7_concrete_scenario :
    simulate scenarioParams =
      { records :=
          [{ year := 0, salary := 50000, contributionPrimary := 5000,
             contributionAlternative := 5000, balanceBeforeFeesPrimary := 5000,
             balanceBeforeFeesAlternative := 5000, balanceAfterFeesPrimary := 5000,
             balanceAfterFeesAlternative := 5000, cumulativeFeesPrimary := 0,
             cumulativeFeesAlternative := 0 },
           { year := 1, salary := 55000, contributionPrimary := 8000,
             contributionAlternative := 5500, balanceBeforeFeesPrimary := 13910,
             balanceBeforeFeesAlternative := 11235,
             balanceAfterFeesPrimary := 137709/10,
             balanceAfterFeesAlternative := 222453/20,
             cumulativeFeesPrimary := 1391/10,
             cumulativeFeesAlternative := 2247/20 }],
        milestoneYear := some 1 } := by
  norm_num [simulate, simulationRecords, List.range_succ, yearRecordAt,
    simStateUpTo, step, initState, scenarioParams, get_auto_enrolment_rate,
    fixedContributionAlt]

end PensionSim
